import Mathlib

/-!
Verification of the httpdump fast connection handler and orchestration loop.

The Go sources embedded here are `main.go` (command-line options, the
orchestration `loop`, the port check in `Option.run`) and the fast handler
file (`FastConnectionHandler`, `fastTrafficHandler.handleRequest`,
`fastTrafficHandler.handleResponse`, `printRequest`, `printResponse`).

Machine strings are modelled as Lean `String`, timestamps as `Nat`
(`time.Time` values ordered by capture time), and the per-direction consumer
loops as recursive functions over the sequence of HTTP parse outcomes the
`httpport` parser produces on the reassembled stream.
-/

/-! ### Basic string helpers (Go standard library behaviour) -/

/-- List-level prefix test: `hasPrefixL s p` is true when `p` is a prefix of `s`. -/
def hasPrefixL : List Char → List Char → Bool
  | _, [] => true
  | [], _ :: _ => false
  | a :: as, b :: bs => a == b && hasPrefixL as bs

/-- List-level substring test, mirroring Go `strings.Contains(s, sub)`. -/
def containsL : List Char → List Char → Bool
  | [], sub => sub.isEmpty
  | s@(_ :: rest), sub => hasPrefixL s sub || containsL rest sub

/-- Go `strings.Contains(s, sub)`: whether `sub` occurs as a substring of `s`. -/
def goContains (s sub : String) : Bool := containsL s.data sub.data

/-- `strStartsWith s p` is true when the string `p` is a prefix of `s`. -/
def strStartsWith (s p : String) : Bool := hasPrefixL s.data p.data

/-- Characters of the first line of a string (up to the first newline). -/
def takeUntilNL : List Char → List Char
  | [] => []
  | c :: rest => if c == '\n' then [] else c :: takeUntilNL rest

/-- First line of a string: everything before the first newline. -/
def firstLineStr (s : String) : String := ⟨takeUntilNL s.data⟩

/-- Number of newline characters in a character list. -/
def countNL : List Char → Nat
  | [] => 0
  | c :: rest => (if c == '\n' then 1 else 0) + countNL rest

/-- Number of newline characters in a string (its line-structure measure). -/
def strCountNL (s : String) : Nat := countNL s.data

/-- Split a character list at commas (Go `strings.Split(s, ",")`). -/
def splitOnComma : List Char → List (List Char)
  | [] => [[]]
  | c :: rest =>
    if c == ',' then [] :: splitOnComma rest
    else
      match splitOnComma rest with
      | [] => [[c]]
      | g :: gs => (c :: g) :: gs

/-! ### Wildcard matching -/

/-- Try `f` on a character list and on each of its proper suffixes. -/
def anyTail (f : List Char → Bool) : List Char → Bool
  | [] => f []
  | c :: rest => f (c :: rest) || anyTail f rest

/-- Modelled from the spec: wildcard matching with `*` (zero or more
characters) and `?` (exactly one character), anchored at both ends; the
`wildcardMatch` helper of the repository is not under `src/`.
`wildMatch p s` matches pattern `p` against text `s`. -/
def wildMatch : List Char → List Char → Bool
  | [] => fun s => s.isEmpty
  | '?' :: ps => fun s =>
    match s with
    | [] => false
    | _ :: ss => wildMatch ps ss
  | '*' :: ps => fun s => anyTail (wildMatch ps) s
  | c :: ps => fun s =>
    match s with
    | [] => false
    | t :: ss => c == t && wildMatch ps ss

/-- `wildcardMatch s p` — argument order as in the Go call sites
`wildcardMatch(r.Host, o.Host)`: text first, pattern second. -/
def wildcardMatch (s p : String) : Bool := wildMatch p.data s.data

/-- Formalises the claim C1 wording of the method filter: membership of the
request method in the comma-separated list given by the Method option.
This is the claim-side definition, to be compared with the source-side
`strings.Contains` test. -/
def methodListMember (optMethod m : String) : Bool :=
  (splitOnComma optMethod.data).contains m.data

/-! ### Data model -/

/-- Command line options of `main.go` that the fast handler and the port
check read. `statusContains` is modelled from the spec: the `IntSet`
predicate `contains(i)` produced by `ParseIntSet` (not under `src/`). -/
structure GoOption where
  level : String
  host : String
  uri : String
  method : String
  resp : Bool
  statusContains : Nat → Bool
  port : Nat

/-- One direction's connection key, endpoints already rendered `ip:port`. -/
structure ConnectionKey where
  src : String
  dst : String
deriving DecidableEq

/-- A parsed HTTP request as the handler reads it from `httpport.ReadRequest`.
`headerLines` are the rendered header lines that `printHeader` writes. -/
structure Request where
  method : String
  host : String
  requestURI : String
  proto : String
  headerLines : List String
  contentLength : Int
  body : String
deriving DecidableEq

/-- A parsed HTTP response as read from `httpport.ReadResponse`.
`rawHeaders` are the verbatim header lines the printer writes. -/
structure Response where
  statusLine : String
  statusCode : Nat
  rawHeaders : List String
  contentLength : Int
  body : String
deriving DecidableEq

/-- The request filter of `handleRequest` (part_000 lines 61-63):
host glob, URI glob, and `strings.Contains` on the Method option. -/
def requestFiltered (o : GoOption) (r : Request) : Bool :=
  (o.host != "" && !wildcardMatch r.host o.host) ||
  (o.uri != "" && !wildcardMatch r.requestURI o.uri) ||
  (o.method != "" && !goContains o.method r.method)

/-- Body-presence rule for requests (part_000 lines 129-133):
a request has a body unless `ContentLength == 0` or its method is
GET, HEAD, TRACE or OPTIONS. -/
def requestHasBody (cl : Int) (m : String) : Bool :=
  !(cl == 0 || m == "GET" || m == "HEAD" || m == "TRACE" || m == "OPTIONS")

/-- Body-presence rule for responses (part_000 lines 164-167):
a response has a body unless `ContentLength == 0` or the status is 304 or 204. -/
def responseHasBody (cl : Int) (status : Nat) : Bool :=
  !(cl == 0 || status == 304 || status == 204)

/-! ### Record printing -/

/-- Space-join of output fields, as `fmt.Fprintln` renders its arguments. -/
def joinSpace : List String → String
  | [] => ""
  | [a] => a
  | a :: rest => a ++ " " ++ joinSpace rest

/-- Modelled from the spec: `writeLine` of the handler base writes its
space-joined fields followed by a newline (`HandlerBase` is not under
`src/`; the record framing section of the spec shows one field group per
line). -/
def writeLine (args : List String) : String := joinSpace args ++ "\n"

/-- Write each string of a list on its own line. -/
def joinLines : List String → String
  | [] => ""
  | h :: t => writeLine [h] ++ joinLines t

/-- Modelled from the spec: `printHeader` writes the header lines of the
message one per line (not under `src/`). -/
def printHeader (headerLines : List String) : String := joinLines headerLines

/-- Modelled from the spec: at level `all` the decoded textual body is
written; we model the rendered body as the message's body text
(`printBody` is not under `src/`). -/
def printBody (body : String) : String := body

/-- Modelled from the spec: `discardAll` drains a reader and returns the
number of bytes discarded (the util package is not under `src/`). -/
def discardAllLen (body : String) : Nat := body.length

/-- `fastTrafficHandler.printRequest` (part_000 lines 117-146): the text the
request record contributes to the handler's buffer. `fmt` renders a
timestamp as `time.RFC3339Nano` does. -/
def fastPrintRequest (fmt : Nat → String) (o : GoOption) (k : ConnectionKey)
    (r : Request) (startTime : Nat) (uuid : String) (seq : Nat) : String :=
  if o.level = "url" then
    writeLine [r.method, r.host ++ r.requestURI]
  else
    writeLine ["\n### REQUEST #" ++ toString seq ++ " " ++ uuid ++ " " ++
      k.src ++ "->" ++ k.dst ++ " " ++ fmt startTime] ++
    (writeLine [r.method, r.requestURI, r.proto] ++
     (printHeader r.headerLines ++
      (if o.level = "header" then
        (if requestHasBody r.contentLength r.method then
          writeLine ["\n// body size:", toString (discardAllLen r.body),
            ", set [level = all] to display http body"]
         else "")
       else
        (if requestHasBody r.contentLength r.method then
          writeLine [] ++ printBody r.body
         else ""))))

/-- `fastTrafficHandler.printResponse` (part_000 lines 149-181): the text the
response record contributes to the handler's buffer. -/
def fastPrintResponse (fmt : Nat → String) (o : GoOption) (k : ConnectionKey)
    (r : Response) (endTime : Nat) (uuid : String) (seq : Nat) : String :=
  if !o.resp || o.level == "url" then ""
  else
    writeLine ["\n### RESPONSE #" ++ toString seq ++ " " ++ uuid ++ " " ++
      k.src ++ "<-" ++ k.dst ++ " " ++ fmt endTime] ++
    (writeLine [r.statusLine] ++
     (joinLines r.rawHeaders ++
      (if o.level = "header" then
        (if responseHasBody r.contentLength r.statusCode then
          writeLine ["\n// body size:", toString (discardAllLen r.body),
            ", set [level = all] to display http body"]
         else "")
       else
        (if responseHasBody r.contentLength r.statusCode then
          writeLine [] ++ printBody r.body
         else ""))))

/-- A request whose body has been replaced by the empty string; used to state
that an output does not read the body. -/
def eraseReqBody (r : Request) : Request := { r with body := "" }

/-- A response whose body has been replaced by the empty string. -/
def eraseRspBody (r : Response) : Response := { r with body := "" }

/-! ### The per-direction consumer loops -/

/-- Error outcomes of a `httpport.ReadRequest` / `ReadResponse` call:
`io.EOF`, `io.ErrUnexpectedEOF`, or any other parse error with its message. -/
inductive ParseErr where
  | eof
  | unexpectedEOF
  | other (msg : String)
deriving DecidableEq

/-- One outcome of a `ReadRequest` call on the request stream.
`segTimes` are, in order, the timestamps of the segments the request
direction accepted between the previous read of `lastReqTimestamp` and this
call's return; `uuid` is `requestStream.LastUUID` at that point. -/
inductive ReqEvent where
  | ok (segTimes : List Nat) (uuid : String) (r : Request)
  | err (e : ParseErr)
deriving DecidableEq

/-- One outcome of a `ReadResponse` call on the response stream. -/
inductive RspEvent where
  | ok (segTimes : List Nat) (uuid : String) (r : Response)
  | err (e : ParseErr)
deriving DecidableEq

/-- New value of a direction's last-activity timestamp after the segments in
`segs` were accepted: the timestamp of the last one, or unchanged if none. -/
def stepTs (ts : Nat) (segs : List Nat) : Nat := segs.foldl (fun _ t => t) ts

/-- Stderr lines produced by the request-side error branch (part_000
lines 53-58): silent on EOF and unexpected EOF, one line otherwise. -/
def reqErrLog : ParseErr → List String
  | ParseErr.eof => []
  | ParseErr.unexpectedEOF => []
  | ParseErr.other m => ["Error parsing HTTP requests: " ++ m]

/-- Stderr lines produced by the response-side error branch (part_000
lines 96-101); the line also carries the connection's client id. -/
def rspErrLog (e : ParseErr) (clientID : String) : List String :=
  match e with
  | ParseErr.eof => []
  | ParseErr.unexpectedEOF => []
  | ParseErr.other m => ["Error parsing HTTP response: " ++ m ++ " " ++ clientID]

/-- A request record sent to the printer: the sequence number drawn from
`reqCounter`, the timestamp stored into it, the parsed request, and the
buffer text passed to `sender.Send`. -/
structure ReqRecord where
  seq : Nat
  startTime : Nat
  req : Request
  text : String
deriving DecidableEq

/-- A response record sent to the printer. -/
structure RspRecord where
  seq : Nat
  endTime : Nat
  rsp : Response
  text : String
deriving DecidableEq

/-- What one run of `handleRequest` produces: the records sent, the requests
whose bodies were drained because the filter rejected them, and the stderr
log lines. -/
structure ReqLoopOut where
  records : List ReqRecord
  drained : List Request
  logs : List String
deriving DecidableEq

/-- What one run of `handleResponse` produces. `drainedRaw` is true when the
whole raw response stream was discarded without parsing (the `!o.Resp`
early return). -/
structure RspLoopOut where
  records : List RspRecord
  drained : List Response
  logs : List String
  drainedRaw : Bool
deriving DecidableEq

/-- `fastTrafficHandler.handleRequest` (part_000 lines 41-74) as a function
of the stream of parse outcomes. `ts` is `c.lastReqTimestamp` when the loop
starts, `c` the current `reqCounter` value. On a parse error the loop stops
(logging unless EOF); a filtered request has its body drained; otherwise the
counter is incremented and a record is printed with the timestamp read right
after the parse returned. -/
def runRequests (fmt : Nat → String) (o : GoOption) (k : ConnectionKey) :
    Nat → Nat → List ReqEvent → ReqLoopOut
  | _, _, [] => ⟨[], [], []⟩
  | _, _, ReqEvent.err e :: _ => ⟨[], [], reqErrLog e⟩
  | ts, c, ReqEvent.ok segs uuid r :: rest =>
    if requestFiltered o r then
      ⟨(runRequests fmt o k (stepTs ts segs) c rest).records,
       r :: (runRequests fmt o k (stepTs ts segs) c rest).drained,
       (runRequests fmt o k (stepTs ts segs) c rest).logs⟩
    else
      ⟨⟨c + 1, stepTs ts segs, r,
          fastPrintRequest fmt o k r (stepTs ts segs) uuid (c + 1)⟩ ::
         (runRequests fmt o k (stepTs ts segs) (c + 1) rest).records,
       (runRequests fmt o k (stepTs ts segs) (c + 1) rest).drained,
       (runRequests fmt o k (stepTs ts segs) (c + 1) rest).logs⟩

/-- The parsing loop of `handleResponse` (part_000 lines 92-113), reached
only when `o.Resp` is set: a status-filtered response has its body drained,
otherwise `rspCounter` is incremented and a record printed with the
timestamp read right after the parse returned. -/
def rspLoop (fmt : Nat → String) (o : GoOption) (cid : String)
    (k : ConnectionKey) : Nat → Nat → List RspEvent → RspLoopOut
  | _, _, [] => ⟨[], [], [], false⟩
  | _, _, RspEvent.err e :: _ => ⟨[], [], rspErrLog e cid, false⟩
  | ts, c, RspEvent.ok segs uuid r :: rest =>
    if !o.statusContains r.statusCode then
      ⟨(rspLoop fmt o cid k (stepTs ts segs) c rest).records,
       r :: (rspLoop fmt o cid k (stepTs ts segs) c rest).drained,
       (rspLoop fmt o cid k (stepTs ts segs) c rest).logs,
       (rspLoop fmt o cid k (stepTs ts segs) c rest).drainedRaw⟩
    else
      ⟨⟨c + 1, stepTs ts segs, r,
          fastPrintResponse fmt o k r (stepTs ts segs) uuid (c + 1)⟩ ::
         (rspLoop fmt o cid k (stepTs ts segs) (c + 1) rest).records,
       (rspLoop fmt o cid k (stepTs ts segs) (c + 1) rest).drained,
       (rspLoop fmt o cid k (stepTs ts segs) (c + 1) rest).logs,
       (rspLoop fmt o cid k (stepTs ts segs) (c + 1) rest).drainedRaw⟩

/-- `fastTrafficHandler.handleResponse` (part_000 lines 79-114): when
`o.Resp` is false the whole stream is discarded without parsing, otherwise
the parsing loop runs. -/
def runResponses (fmt : Nat → String) (o : GoOption) (cid : String)
    (k : ConnectionKey) (ts c : Nat) (evs : List RspEvent) : RspLoopOut :=
  if !o.resp then ⟨[], [], [], true⟩
  else rspLoop fmt o cid k ts c evs

/-- `FastConnectionHandler.handle` (part_000 lines 22-31): the two directions
run as independent consumers over their own streams. -/
def fastHandle (fmt : Nat → String) (o : GoOption) (cid : String)
    (k : ConnectionKey) (ts c ts2 c2 : Nat)
    (reqEvs : List ReqEvent) (rspEvs : List RspEvent) :
    ReqLoopOut × RspLoopOut :=
  (runRequests fmt o k ts c reqEvs, runResponses fmt o cid k ts2 c2 rspEvs)

/-! ### Claim-side companions of the loops -/

/-- Requests successfully parsed before the first parse error of the stream:
exactly the messages the loop body sees. -/
def oksBeforeErr : List ReqEvent → List Request
  | [] => []
  | ReqEvent.err _ :: _ => []
  | ReqEvent.ok _ _ r :: rest => r :: oksBeforeErr rest

/-- The last-activity timestamps as read immediately after each unfiltered
request message finishes parsing (claim-side companion of `runRequests`). -/
def timesAfterParseReq (o : GoOption) : Nat → List ReqEvent → List Nat
  | _, [] => []
  | _, ReqEvent.err _ :: _ => []
  | ts, ReqEvent.ok segs _ r :: rest =>
    if requestFiltered o r then timesAfterParseReq o (stepTs ts segs) rest
    else stepTs ts segs :: timesAfterParseReq o (stepTs ts segs) rest

/-- The last-activity timestamps as read immediately after each status-passing
response message finishes parsing (claim-side companion of `rspLoop`). -/
def timesAfterParseRsp (o : GoOption) : Nat → List RspEvent → List Nat
  | _, [] => []
  | _, RspEvent.err _ :: _ => []
  | ts, RspEvent.ok segs _ r :: rest =>
    if !o.statusContains r.statusCode then
      timesAfterParseRsp o (stepTs ts segs) rest
    else stepTs ts segs :: timesAfterParseRsp o (stepTs ts segs) rest

/-- True when no event of the list is a parse error. -/
def reqErrFree : List ReqEvent → Bool
  | [] => true
  | ReqEvent.err _ :: _ => false
  | ReqEvent.ok _ _ _ :: rest => reqErrFree rest

/-- True when no event of the list is a parse error. -/
def rspErrFree : List RspEvent → Bool
  | [] => true
  | RspEvent.err _ :: _ => false
  | RspEvent.ok _ _ _ :: rest => rspErrFree rest

/-! ### Orchestration loop, port check, counters -/

/-- The transport layer type gopacket reports for a packet. -/
inductive TransportType where
  | tcp
  | udp
  | other
deriving DecidableEq

/-- A packet as the orchestration loop sees it: its network layer (rendered
as the network flow) if present, its transport layer type if present, and
the capture timestamp `p.Metadata().Timestamp`. -/
structure Packet where
  net : Option String
  transport : Option TransportType
  ts : Nat
deriving DecidableEq

/-- What the packet branch of `loop` (main.go lines 95-106) does with one
value received from the packets channel. -/
inductive LoopAction where
  | stop
  | skip
  | assemble (flow : String) (ts : Nat)
deriving DecidableEq

/-- The packet branch of `loop` (main.go lines 95-106): a nil packet ends the
loop; a packet without network layer, without transport layer, or whose
transport is not TCP is skipped; otherwise `assembler.assemble` is called
with the network flow and the capture timestamp. -/
def processPacket : Option Packet → LoopAction
  | none => LoopAction.stop
  | some p =>
    match p.net, p.transport with
    | some n, some t =>
      if t = TransportType.tcp then LoopAction.assemble n p.ts
      else LoopAction.skip
    | _, _ => LoopAction.skip

/-- First step of `Option.run` (main.go lines 51-59). -/
inductive RunStart where
  | rejectedPort
  | openSource
deriving DecidableEq

/-- The port validation of `Option.run` (main.go lines 52-54): only
`o.Port > 65536` is rejected before the packet source is opened. -/
def runStart (o : GoOption) : RunStart :=
  if o.port > 65536 then RunStart.rejectedPort else RunStart.openSource

/-- Direction of an emitted record. -/
inductive Dir where
  | req
  | rsp
deriving DecidableEq

/-- Modelled from the spec: `Counter` is a monotonic atomic incrementer and
`reqCounter` / `rspCounter` are its two process-wide instances (the Counter
utility is not under `src/`). `runCounters rc sc evs` threads the two
counters through the run's record emissions in emission order — each
element of `evs` is one `Incr()` call at part_000 line 70 or line 109, from
any connection — and returns the sequence number each emission received. -/
def runCounters : Nat → Nat → List Dir → List (Dir × Nat)
  | _, _, [] => []
  | rc, sc, Dir.req :: rest => (Dir.req, rc + 1) :: runCounters (rc + 1) sc rest
  | rc, sc, Dir.rsp :: rest => (Dir.rsp, sc + 1) :: runCounters rc (sc + 1) rest

/-! ### Concrete inputs for witnesses and counterexamples -/

/-- Timestamp rendering used in concrete runs. -/
def fmtId : Nat → String := fun n => toString n

/-- A concrete connection key. -/
def key0 : ConnectionKey := ⟨"1.2.3.4:5", "6.7.8.9:10"⟩

/-- Options: header level, no filters, responses on. -/
def optHeader : GoOption := ⟨"header", "", "", "", true, fun _ => true, 80⟩

/-- Options: header level, method filter `GET,POST`. -/
def optMethodCsv : GoOption := ⟨"header", "", "", "GET,POST", true, fun _ => true, 80⟩

/-- Options: url level, responses on. -/
def optUrl : GoOption := ⟨"url", "", "", "", true, fun _ => true, 80⟩

/-- Options: header level with responses off. -/
def optNoResp : GoOption := ⟨"header", "", "", "", false, fun _ => true, 80⟩

/-- Options with the out-of-range port 65536. -/
def optPort65536 : GoOption := ⟨"header", "", "", "", false, fun _ => true, 65536⟩

/-- A GET request with an empty body. -/
def reqGET : Request :=
  ⟨"GET", "example.com", "/x", "HTTP/1.1", ["Host: example.com"], 0, ""⟩

/-- A request whose method is the single letter `T`. -/
def reqT : Request :=
  ⟨"T", "example.com", "/x", "HTTP/1.1", ["Host: example.com"], 0, ""⟩

/-- A POST request carrying a body. -/
def reqPOST : Request :=
  ⟨"POST", "example.com", "/x", "HTTP/1.1", ["Host: example.com"], 3, "abc"⟩

/-- A 200 response with a three-byte body. -/
def rsp200 : Response :=
  ⟨"HTTP/1.1 200 OK", 200, ["Content-Length: 3"], 3, "abc"⟩

/-- A 204 response without a body. -/
def rsp204 : Response :=
  ⟨"HTTP/1.1 204 No Content", 204, [], 0, ""⟩

/-! ### Helper lemmas -/

theorem hasPrefixL_append (xs ys : List Char) : hasPrefixL (xs ++ ys) xs = true := by
  induction xs with
  | nil => simp [hasPrefixL]
  | cons a as ih => simp [hasPrefixL, ih]

theorem strStartsWith_append (a b : String) : strStartsWith (a ++ b) a = true := by
  show hasPrefixL (a.data ++ b.data) a.data = true
  exact hasPrefixL_append a.data b.data

theorem strStartsWith_assoc3 (a b c d : String) :
    strStartsWith (a ++ ((b ++ c) ++ d)) ((a ++ b) ++ c) = true := by
  show hasPrefixL (a.data ++ ((b.data ++ c.data) ++ d.data))
    ((a.data ++ b.data) ++ c.data) = true
  rw [show a.data ++ ((b.data ++ c.data) ++ d.data)
      = ((a.data ++ b.data) ++ c.data) ++ d.data by simp]
  exact hasPrefixL_append _ _

theorem countNL_append (xs ys : List Char) :
    countNL (xs ++ ys) = countNL xs + countNL ys := by
  induction xs with
  | nil => simp [countNL]
  | cons c rest ih => simp [countNL, ih, Nat.add_assoc]

theorem strCountNL_append (a b : String) :
    strCountNL (a ++ b) = strCountNL a + strCountNL b := by
  show countNL (a.data ++ b.data) = countNL a.data + countNL b.data
  exact countNL_append _ _

theorem runCounters_mem (evs : List Dir) :
    ∀ (rc sc : Nat) (p : Dir × Nat), p ∈ runCounters rc sc evs →
      (p.1 = Dir.req → rc < p.2) ∧ (p.1 = Dir.rsp → sc < p.2) := by
  induction evs with
  | nil =>
    intro rc sc p hp
    simp [runCounters] at hp
  | cons d rest ih =>
    intro rc sc p hp
    cases d with
    | req =>
      rw [show runCounters rc sc (Dir.req :: rest)
          = (Dir.req, rc + 1) :: runCounters (rc + 1) sc rest from rfl,
        List.mem_cons] at hp
      rcases hp with h | h
      · subst h
        exact ⟨fun _ => Nat.lt_succ_self rc, fun h2 => by simp at h2⟩
      · have hm := ih (rc + 1) sc p h
        exact ⟨fun h1 => Nat.lt_of_succ_lt (hm.1 h1), hm.2⟩
    | rsp =>
      rw [show runCounters rc sc (Dir.rsp :: rest)
          = (Dir.rsp, sc + 1) :: runCounters rc (sc + 1) rest from rfl,
        List.mem_cons] at hp
      rcases hp with h | h
      · subst h
        exact ⟨fun h2 => by simp at h2, fun _ => Nat.lt_succ_self sc⟩
      · have hm := ih rc (sc + 1) p h
        exact ⟨hm.1, fun h1 => Nat.lt_of_succ_lt (hm.2 h1)⟩

theorem runCounters_pairwise (evs : List Dir) :
    ∀ (rc sc : Nat), (runCounters rc sc evs).Pairwise
      (fun a b => a.1 = b.1 → a.2 < b.2) := by
  induction evs with
  | nil => intro rc sc; simp [runCounters]
  | cons d rest ih =>
    intro rc sc
    cases d with
    | req =>
      show List.Pairwise _ ((Dir.req, rc + 1) :: runCounters (rc + 1) sc rest)
      refine List.Pairwise.cons ?_ (ih (rc + 1) sc)
      intro b hb hdir
      exact (runCounters_mem rest (rc + 1) sc b hb).1 hdir.symm
    | rsp =>
      show List.Pairwise _ ((Dir.rsp, sc + 1) :: runCounters rc (sc + 1) rest)
      refine List.Pairwise.cons ?_ (ih rc (sc + 1))
      intro b hb hdir
      exact (runCounters_mem rest rc (sc + 1) b hb).2 hdir.symm

theorem runRequests_records_eq (fmt : Nat → String) (o : GoOption)
    (k : ConnectionKey) :
    ∀ (evs : List ReqEvent) (ts c : Nat),
      (runRequests fmt o k ts c evs).records.map (fun rec => rec.req)
        = (oksBeforeErr evs).filter (fun r => !requestFiltered o r) := by
  intro evs
  induction evs with
  | nil => intro ts c; simp [runRequests, oksBeforeErr]
  | cons ev rest ih =>
    intro ts c
    cases ev with
    | err e => simp [runRequests, oksBeforeErr]
    | ok segs uuid r =>
      cases hf : requestFiltered o r with
      | false => simp [runRequests, oksBeforeErr, hf, ih]
      | true => simp [runRequests, oksBeforeErr, hf, ih]

theorem runRequests_drained_eq (fmt : Nat → String) (o : GoOption)
    (k : ConnectionKey) :
    ∀ (evs : List ReqEvent) (ts c : Nat),
      (runRequests fmt o k ts c evs).drained
        = (oksBeforeErr evs).filter (fun r => requestFiltered o r) := by
  intro evs
  induction evs with
  | nil => intro ts c; simp [runRequests, oksBeforeErr]
  | cons ev rest ih =>
    intro ts c
    cases ev with
    | err e => simp [runRequests, oksBeforeErr]
    | ok segs uuid r =>
      cases hf : requestFiltered o r with
      | false => simp [runRequests, oksBeforeErr, hf, ih]
      | true => simp [runRequests, oksBeforeErr, hf, ih]

theorem runRequests_times_eq (fmt : Nat → String) (o : GoOption)
    (k : ConnectionKey) :
    ∀ (evs : List ReqEvent) (ts c : Nat),
      (runRequests fmt o k ts c evs).records.map (fun rec => rec.startTime)
        = timesAfterParseReq o ts evs := by
  intro evs
  induction evs with
  | nil => intro ts c; simp [runRequests, timesAfterParseReq]
  | cons ev rest ih =>
    intro ts c
    cases ev with
    | err e => simp [runRequests, timesAfterParseReq]
    | ok segs uuid r =>
      cases hf : requestFiltered o r with
      | false => simp [runRequests, timesAfterParseReq, hf, ih]
      | true => simp [runRequests, timesAfterParseReq, hf, ih]

theorem rspLoop_times_eq (fmt : Nat → String) (o : GoOption) (cid : String)
    (k : ConnectionKey) :
    ∀ (evs : List RspEvent) (ts c : Nat),
      (rspLoop fmt o cid k ts c evs).records.map (fun rec => rec.endTime)
        = timesAfterParseRsp o ts evs := by
  intro evs
  induction evs with
  | nil => intro ts c; simp [rspLoop, timesAfterParseRsp]
  | cons ev rest ih =>
    intro ts c
    cases ev with
    | err e => simp [rspLoop, timesAfterParseRsp]
    | ok segs uuid r =>
      cases hs : o.statusContains r.statusCode with
      | false => simp [rspLoop, timesAfterParseRsp, hs, ih]
      | true => simp [rspLoop, timesAfterParseRsp, hs, ih]

theorem runRequests_stop_at_err (fmt : Nat → String) (o : GoOption)
    (k : ConnectionKey) (e : ParseErr) :
    ∀ (pre post : List ReqEvent) (ts c : Nat),
      runRequests fmt o k ts c (pre ++ ReqEvent.err e :: post)
        = runRequests fmt o k ts c (pre ++ [ReqEvent.err e]) := by
  intro pre
  induction pre with
  | nil => intro post ts c; simp [runRequests]
  | cons ev rest ih =>
    intro post ts c
    cases ev with
    | err e2 => simp [runRequests]
    | ok segs uuid r =>
      cases hf : requestFiltered o r with
      | false => simp [runRequests, hf, ih]
      | true => simp [runRequests, hf, ih]

theorem runRequests_err_logs (fmt : Nat → String) (o : GoOption)
    (k : ConnectionKey) (e : ParseErr) :
    ∀ (pre : List ReqEvent) (ts c : Nat), reqErrFree pre = true →
      (runRequests fmt o k ts c (pre ++ [ReqEvent.err e])).logs = reqErrLog e := by
  intro pre
  induction pre with
  | nil => intro ts c _; simp [runRequests]
  | cons ev rest ih =>
    intro ts c h
    cases ev with
    | err e2 => simp [reqErrFree] at h
    | ok segs uuid r =>
      have h2 : reqErrFree rest = true := by simpa [reqErrFree] using h
      cases hf : requestFiltered o r with
      | false => simp [runRequests, hf, ih _ _ h2]
      | true => simp [runRequests, hf, ih _ _ h2]

theorem rspLoop_stop_at_err (fmt : Nat → String) (o : GoOption) (cid : String)
    (k : ConnectionKey) (e : ParseErr) :
    ∀ (pre post : List RspEvent) (ts c : Nat),
      rspLoop fmt o cid k ts c (pre ++ RspEvent.err e :: post)
        = rspLoop fmt o cid k ts c (pre ++ [RspEvent.err e]) := by
  intro pre
  induction pre with
  | nil => intro post ts c; simp [rspLoop]
  | cons ev rest ih =>
    intro post ts c
    cases ev with
    | err e2 => simp [rspLoop]
    | ok segs uuid r =>
      cases hs : o.statusContains r.statusCode with
      | false => simp [rspLoop, hs, ih]
      | true => simp [rspLoop, hs, ih]

theorem rspLoop_err_logs (fmt : Nat → String) (o : GoOption) (cid : String)
    (k : ConnectionKey) (e : ParseErr) :
    ∀ (pre : List RspEvent) (ts c : Nat), rspErrFree pre = true →
      (rspLoop fmt o cid k ts c (pre ++ [RspEvent.err e])).logs
        = rspErrLog e cid := by
  intro pre
  induction pre with
  | nil => intro ts c _; simp [rspLoop]
  | cons ev rest ih =>
    intro ts c h
    cases ev with
    | err e2 => simp [rspErrFree] at h
    | ok segs uuid r =>
      have h2 : rspErrFree rest = true := by simpa [rspErrFree] using h
      cases hs : o.statusContains r.statusCode with
      | false => simp [rspLoop, hs, ih _ _ h2]
      | true => simp [rspLoop, hs, ih _ _ h2]

theorem runRequests_resp_irrel (fmt : Nat → String) (o : GoOption)
    (k : ConnectionKey) (b : Bool) :
    ∀ (evs : List ReqEvent) (ts c : Nat),
      runRequests fmt { o with resp := b } k ts c evs
        = runRequests fmt o k ts c evs := by
  intro evs
  induction evs with
  | nil => intro ts c; rfl
  | cons ev rest ih =>
    intro ts c
    cases ev with
    | err e => rfl
    | ok segs uuid r =>
      have hfil : requestFiltered { o with resp := b } r = requestFiltered o r := rfl
      have hpr : fastPrintRequest fmt { o with resp := b } k r (stepTs ts segs)
          uuid (c + 1) = fastPrintRequest fmt o k r (stepTs ts segs) uuid (c + 1) := rfl
      cases hf : requestFiltered o r with
      | false => simp [runRequests, hfil, hf, hpr, ih]
      | true => simp [runRequests, hfil, hf, ih]

/-! ### Claims -/

/-- C1 (amended): in the fast handler's request loop a parsed request is
dropped — its body drained and no record emitted — exactly when the Host
option is set and the request's Host does not glob-match it, or the Uri
option is set and the request URI does not glob-match it, or the Method
option is set and the Method option string does not contain the request's
method as a substring (Go `strings.Contains`); otherwise a record is
emitted. -/
theorem C1_filter_partition (fmt : Nat → String) (o : GoOption)
    (k : ConnectionKey) (evs : List ReqEvent) (ts c : Nat) :
    (runRequests fmt o k ts c evs).records.map (fun rec => rec.req)
      = (oksBeforeErr evs).filter (fun r => !requestFiltered o r)
  ∧ (runRequests fmt o k ts c evs).drained
      = (oksBeforeErr evs).filter (fun r => requestFiltered o r) :=
  ⟨runRequests_records_eq fmt o k evs ts c, runRequests_drained_eq fmt o k evs ts c⟩

/-- C1 counterexample: with Method option `"GET,POST"`, a request whose
method is `"T"` is emitted by the code — `strings.Contains("GET,POST","T")`
holds — although `T` is not a member of the comma-separated method list, so
the claim's "dropped exactly when … not a member of the comma-separated
method list" is false on the code. -/
theorem C1_method_filter_counterexample :
    (runRequests fmtId optMethodCsv key0 0 0 [ReqEvent.ok [] "u" reqT]).records.map
        (fun rec => rec.req) = [reqT]
  ∧ methodListMember "GET,POST" "T" = false
  ∧ goContains "GET,POST" "T" = true :=
  ⟨by decide, by decide, by decide⟩

/-- C2 (amended): the timestamp placed in each emitted record is the
connection's last-activity timestamp for that direction as read immediately
AFTER the message's parse call returns (part_000 lines 51-52 and 94-95),
not a value read before parsing starts. -/
theorem C2_timestamp_after_parse (fmt : Nat → String) (o : GoOption)
    (cid : String) (k : ConnectionKey) (evs : List ReqEvent)
    (evs2 : List RspEvent) (ts c ts2 c2 : Nat) :
    (runRequests fmt o k ts c evs).records.map (fun rec => rec.startTime)
      = timesAfterParseReq o ts evs
  ∧ (rspLoop fmt o cid k ts2 c2 evs2).records.map (fun rec => rec.endTime)
      = timesAfterParseRsp o ts2 evs2 :=
  ⟨runRequests_times_eq fmt o k evs ts c, rspLoop_times_eq fmt o cid k evs2 ts2 c2⟩

/-- C2 counterexample: with last-activity timestamp 0 at loop entry, a
request parse that consumes a segment stamped 5 produces a record stamped 5
(the value read after parsing completes), not 0 (the value immediately
before parsing starts), so the claim as stated is false on the code. -/
theorem C2_timestamp_counterexample :
    (runRequests fmtId optHeader key0 0 0 [ReqEvent.ok [5] "u" reqGET]).records.map
        (fun rec => rec.startTime) = [5]
  ∧ (5 : Nat) ≠ 0 :=
  ⟨by decide, by decide⟩

/-- C3: a request is treated as having no body exactly when its
Content-Length is 0 or its method is GET, HEAD, TRACE or OPTIONS; a response
exactly when its Content-Length is 0 or its status is 204 or 304; and when
no body is expected the printers skip the body reads — their output does not
depend on the message body. -/
theorem C3_body_presence :
    (∀ (cl : Int) (m : String), requestHasBody cl m = false ↔
      (cl = 0 ∨ m = "GET" ∨ m = "HEAD" ∨ m = "TRACE" ∨ m = "OPTIONS"))
  ∧ (∀ (cl : Int) (st : Nat), responseHasBody cl st = false ↔
      (cl = 0 ∨ st = 204 ∨ st = 304))
  ∧ (∀ (fmt : Nat → String) (o : GoOption) (k : ConnectionKey) (r : Request)
      (t : Nat) (u : String) (s : Nat),
      requestHasBody r.contentLength r.method = false →
      fastPrintRequest fmt o k r t u s
        = fastPrintRequest fmt o k (eraseReqBody r) t u s)
  ∧ (∀ (fmt : Nat → String) (o : GoOption) (k : ConnectionKey) (r : Response)
      (t : Nat) (u : String) (s : Nat),
      responseHasBody r.contentLength r.statusCode = false →
      fastPrintResponse fmt o k r t u s
        = fastPrintResponse fmt o k (eraseRspBody r) t u s) := by
  refine ⟨?_, ?_, ?_, ?_⟩
  · intro cl m
    simp [requestHasBody]
    tauto
  · intro cl st
    simp [responseHasBody]
    tauto
  · intro fmt o k r t u s h
    simp [fastPrintRequest, eraseReqBody, h]
  · intro fmt o k r t u s h
    simp [fastPrintResponse, eraseRspBody, h]

/-- C3 witness: a GET request (no body expected) prints identically whether
or not its body text is present. -/
theorem C3_body_presence_witness :
    fastPrintRequest fmtId optHeader key0 reqGET 0 "u" 1
      = fastPrintRequest fmtId optHeader key0 (eraseReqBody reqGET) 0 "u" 1 :=
  C3_body_presence.2.2.1 fmtId optHeader key0 reqGET 0 "u" 1 (by decide)

/-- C4: for every pair of records emitted in the same direction during one
process run, the record emitted later carries a strictly greater sequence
number, across all connections — each emission draws `Incr()` from the
direction's shared counter (part_000 lines 70 and 109). -/
theorem C4_seq_monotone (rc sc : Nat) (evs : List Dir)
    (i j : Fin (runCounters rc sc evs).length) (hij : (i : Nat) < (j : Nat))
    (hdir : ((runCounters rc sc evs).get i).1 = ((runCounters rc sc evs).get j).1) :
    ((runCounters rc sc evs).get i).2 < ((runCounters rc sc evs).get j).2 :=
  (List.pairwise_iff_get.mp (runCounters_pairwise evs rc sc) i j hij) hdir

/-- C4 witness: in the emission order request, response, request, the two
request records get sequence numbers 1 and 2. -/
theorem C4_seq_monotone_witness :
    ((runCounters 0 0 [Dir.req, Dir.rsp, Dir.req]).get ⟨0, by decide⟩).2
      < ((runCounters 0 0 [Dir.req, Dir.rsp, Dir.req]).get ⟨2, by decide⟩).2 :=
  C4_seq_monotone 0 0 [Dir.req, Dir.rsp, Dir.req] ⟨0, by decide⟩ ⟨2, by decide⟩
    (by decide) (by decide)

/-- C5: the code evaluated at the failing input Port = 65536: the check
`o.Port > 65536` in `Option.run` does NOT reject 65536 — `run` proceeds to
open the packet source — although 65536 is outside the valid TCP port range
(greater than 65535), which the claim (and the code's own intent of
rejecting invalid ports) requires to be rejected. -/
theorem C5_port_check_eval :
    runStart optPort65536 = RunStart.openSource ∧ 65535 < optPort65536.port :=
  ⟨by decide, by decide⟩

/-- C6 (amended): at output level `url`, for every request passing the
filters exactly one line is emitted, containing its method and the
concatenation of the Host header value and the request URI; for every
response nothing at all is emitted — the record is empty, with no line, no
headers, no body and no body-size note. -/
theorem C6_url_level (fmt : Nat → String) (o : GoOption) (k : ConnectionKey)
    (r : Request) (rsp : Response) (t t2 : Nat) (u u2 : String) (s s2 : Nat)
    (h : o.level = "url") :
    fastPrintRequest fmt o k r t u s
      = r.method ++ " " ++ (r.host ++ r.requestURI) ++ "\n"
  ∧ (strCountNL (r.method ++ " " ++ (r.host ++ r.requestURI)) = 0 →
      strCountNL (fastPrintRequest fmt o k r t u s) = 1)
  ∧ fastPrintResponse fmt o k rsp t2 u2 s2 = "" := by
  have h1 : fastPrintRequest fmt o k r t u s
      = r.method ++ " " ++ (r.host ++ r.requestURI) ++ "\n" := by
    unfold fastPrintRequest
    rw [if_pos h]
    rfl
  refine ⟨h1, ?_, ?_⟩
  · intro h0
    rw [h1, show r.method ++ " " ++ (r.host ++ r.requestURI) ++ "\n"
      = (r.method ++ " " ++ (r.host ++ r.requestURI)) ++ "\n" from rfl,
      strCountNL_append, h0]
    decide
  · simp [fastPrintResponse, h]

/-- C6 witness: a concrete GET record at level url. -/
theorem C6_url_level_witness :
    fastPrintRequest fmtId optUrl key0 reqGET 0 "u" 1
      = reqGET.method ++ " " ++ (reqGET.host ++ reqGET.requestURI) ++ "\n" :=
  (C6_url_level fmtId optUrl key0 reqGET rsp200 0 0 "u" "u" 1 1 rfl).1

/-- C6 counterexample: at level url with responses enabled and a passing
status filter, the response record text is completely empty — it contains
no line at all (zero newlines), although its status line is nonempty — so
the claim's "the emitted output is the line only" is false on the code. -/
theorem C6_url_response_counterexample :
    fastPrintResponse fmtId optUrl key0 rsp200 0 "u" 1 = ""
  ∧ strCountNL (fastPrintResponse fmtId optUrl key0 rsp200 0 "u" 1) = 0
  ∧ rsp200.statusLine = "HTTP/1.1 200 OK" :=
  ⟨by decide, by decide, by decide⟩

/-- C7 (amended): at levels other than `url`, every request record begins
with a newline followed by a line of the form
`### REQUEST #<seq> <uuid> <src>-><dst> <timestamp>`, and every response
record (responses enabled) mirrors it with `<-` between the endpoints,
followed by the status line. The `###` line is the second line of the
record: the record's first line is blank because the format string starts
with `\n`. -/
theorem C7_record_header (fmt : Nat → String) (o : GoOption) (k : ConnectionKey)
    (r : Request) (rsp : Response) (t t2 : Nat) (u u2 : String) (s s2 : Nat)
    (h : o.level ≠ "url") (h2 : o.resp = true) :
    strStartsWith (fastPrintRequest fmt o k r t u s)
      ("\n### REQUEST #" ++ toString s ++ " " ++ u ++ " " ++ k.src ++ "->" ++
        k.dst ++ " " ++ fmt t ++ "\n") = true
  ∧ strStartsWith (fastPrintResponse fmt o k rsp t2 u2 s2)
      ("\n### RESPONSE #" ++ toString s2 ++ " " ++ u2 ++ " " ++ k.src ++ "<-" ++
        k.dst ++ " " ++ fmt t2 ++ "\n" ++ rsp.statusLine ++ "\n") = true := by
  constructor
  · unfold fastPrintRequest
    rw [if_neg h]
    exact strStartsWith_append _ _
  · have hcond : (!o.resp || (o.level == "url")) = false := by simp [h2, h]
    unfold fastPrintResponse
    rw [hcond, if_neg (show ¬(false = true) by simp)]
    exact strStartsWith_assoc3 _ _ _ _

/-- C7 witness: a concrete request record at level header starts with the
blank line and the `### REQUEST` line. -/
theorem C7_record_header_witness :
    strStartsWith (fastPrintRequest fmtId optHeader key0 reqGET 3 "uu" 2)
      ("\n### REQUEST #" ++ toString 2 ++ " " ++ "uu" ++ " " ++ key0.src ++ "->" ++
        key0.dst ++ " " ++ fmtId 3 ++ "\n") = true :=
  (C7_record_header fmtId optHeader key0 reqGET rsp200 3 0 "uu" "u" 2 1
    (by decide) rfl).1

/-- C7 counterexample: the first line of a request record at level header is
empty — the buffer starts with the `\n` of the format string — so the
claim's "the first line has the form `### REQUEST …`" is false on the code;
the `###` header is the second line. -/
theorem C7_first_line_counterexample :
    firstLineStr (fastPrintRequest fmtId optHeader key0 reqGET 5 "uu" 1) = ""
  ∧ strStartsWith (firstLineStr (fastPrintRequest fmtId optHeader key0 reqGET 5 "uu" 1))
      "### REQUEST" = false :=
  ⟨by decide, by decide⟩

/-- C8: when the HTTP parser returns an error mid-stream, that direction's
consumer loop terminates at the error — events after it are never
processed; the error produces exactly one log line unless it is EOF or
unexpected EOF, which terminate the loop silently; and the other
direction's loop output is unaffected by the request-side events. -/
theorem C8_parse_error_stops (fmt : Nat → String) (o : GoOption) (cid : String)
    (k : ConnectionKey) (ts c ts2 c2 ts3 c3 ts4 c4 : Nat)
    (pre post : List ReqEvent) (preR postR : List RspEvent) (e eR : ParseErr)
    (reqEvs reqEvs2 : List ReqEvent) (rspEvs : List RspEvent)
    (h1 : reqErrFree pre = true) (h2 : rspErrFree preR = true) :
    runRequests fmt o k ts c (pre ++ ReqEvent.err e :: post)
      = runRequests fmt o k ts c (pre ++ [ReqEvent.err e])
  ∧ (runRequests fmt o k ts c (pre ++ [ReqEvent.err e])).logs = reqErrLog e
  ∧ ((reqErrLog e).length = 0 ↔ (e = ParseErr.eof ∨ e = ParseErr.unexpectedEOF))
  ∧ (reqErrLog e).length ≤ 1
  ∧ rspLoop fmt o cid k ts2 c2 (preR ++ RspEvent.err eR :: postR)
      = rspLoop fmt o cid k ts2 c2 (preR ++ [RspEvent.err eR])
  ∧ (rspLoop fmt o cid k ts2 c2 (preR ++ [RspEvent.err eR])).logs = rspErrLog eR cid
  ∧ (fastHandle fmt o cid k ts3 c3 ts4 c4 reqEvs rspEvs).2
      = (fastHandle fmt o cid k ts3 c3 ts4 c4 reqEvs2 rspEvs).2 := by
  refine ⟨runRequests_stop_at_err fmt o k e pre post ts c,
    runRequests_err_logs fmt o k e pre ts c h1, ?_, ?_,
    rspLoop_stop_at_err fmt o cid k eR preR postR ts2 c2,
    rspLoop_err_logs fmt o cid k eR preR ts2 c2 h2, rfl⟩
  · cases e <;> simp [reqErrLog]
  · cases e <;> simp [reqErrLog]

/-- C8 witness: a non-EOF parse error right at the start of the request
stream yields exactly the one log line of the error branch. -/
theorem C8_parse_error_stops_witness :
    (runRequests fmtId optHeader key0 0 0 [ReqEvent.err (ParseErr.other "bad")]).logs
      = ["Error parsing HTTP requests: " ++ "bad"] :=
  (C8_parse_error_stops fmtId optHeader "cid" key0 0 0 0 0 0 0 0 0 [] [] [] []
    (ParseErr.other "bad") ParseErr.eof [] [] [] rfl rfl).2.1

/-- C9: the orchestration loop skips — with no assembler call, no log and no
termination — exactly those packets that lack a network layer, lack a
transport layer, or whose transport layer is not TCP; every TCP/IP packet
is passed to `assembler.assemble` with its network flow and its capture
timestamp. -/
theorem C9_loop_tcp_only (p : Packet) :
    (processPacket (some p) = LoopAction.skip ↔
      (p.net = none ∨ p.transport = none ∨
        ∃ tt, p.transport = some tt ∧ tt ≠ TransportType.tcp))
  ∧ (∀ n, p.net = some n → p.transport = some TransportType.tcp →
      processPacket (some p) = LoopAction.assemble n p.ts) := by
  obtain ⟨pn, pt, pts⟩ := p
  constructor
  · cases pn with
    | none => cases pt <;> simp [processPacket]
    | some n =>
      cases pt with
      | none => simp [processPacket]
      | some tt => cases tt <;> simp [processPacket]
  · intro n hn ht
    simp only at hn ht
    subst hn
    subst ht
    simp [processPacket]

/-- C9 witness: a concrete TCP packet is assembled with its flow and capture
timestamp. -/
theorem C9_loop_tcp_only_witness :
    processPacket (some ⟨some "1.2.3.4:5->6.7.8.9:10", some TransportType.tcp, 7⟩)
      = LoopAction.assemble "1.2.3.4:5->6.7.8.9:10" 7 :=
  (C9_loop_tcp_only ⟨some "1.2.3.4:5->6.7.8.9:10", some TransportType.tcp, 7⟩).2
    "1.2.3.4:5->6.7.8.9:10" rfl rfl

/-- C10: with the Resp option false, `handleResponse` discards the whole
response stream without parsing it — no response record is emitted, no
response parse error is logged, whatever the stream holds — while the
request direction's loop is unaffected by the Resp option. -/
theorem C10_resp_disabled (fmt : Nat → String) (o : GoOption) (cid : String)
    (k : ConnectionKey) (ts c : Nat) (evs : List RspEvent)
    (b : Bool) (reqEvs : List ReqEvent) (ts2 c2 : Nat)
    (h : o.resp = false) :
    runResponses fmt o cid k ts c evs = ⟨[], [], [], true⟩
  ∧ runRequests fmt { o with resp := b } k ts2 c2 reqEvs
      = runRequests fmt o k ts2 c2 reqEvs := by
  constructor
  · simp [runResponses, h]
  · exact runRequests_resp_irrel fmt o k b reqEvs ts2 c2

/-- C10 witness: with responses off, a stream holding a valid response and a
parse error still produces no record, no log, and a raw drain. -/
theorem C10_resp_disabled_witness :
    runResponses fmtId optNoResp "cid" key0 0 0
        [RspEvent.ok [] "u" rsp200, RspEvent.err (ParseErr.other "bad")]
      = ⟨[], [], [], true⟩ :=
  (C10_resp_disabled fmtId optNoResp "cid" key0 0 0
    [RspEvent.ok [] "u" rsp200, RspEvent.err (ParseErr.other "bad")]
    true [] 0 0 rfl).1
